import Mathlib

/-!
Verification development for the subscription-tracking application.

The application stores dates as ISO timestamps and manipulates them
through the JavaScript `Date` API (`setDate`, `setMonth`, `setFullYear`).
All the operations verified here preserve the time-of-day component, so
dates are modelled at calendar-day granularity as proleptic Gregorian
triples (year, 0-based month as in `Date.getMonth`, 1-based day as in
`Date.getDate`).  JavaScript numbers are modelled as rationals; the
amounts and thresholds involved in the claims are exact in both systems.
Collections owned by the services are modelled as explicit lists, with
service methods returning the updated list together with an
`Except`-result mirroring the JS throw/return behaviour.
-/

/-- A calendar date: `year` as in `getFullYear`, `month` 0-based as in
`getMonth`, `day` 1-based as in `getDate`. -/
structure CalDate where
  year : Int
  month : Nat
  day : Nat
deriving DecidableEq, Repr

/-- Gregorian leap-year rule, as implemented by the JS `Date` object. -/
def isLeapYear (y : Int) : Bool :=
  (y % 4 == 0 && y % 100 != 0) || (y % 400 == 0)

/-- Number of days in month `m` (0-based) of year `y`.  The catch-all
branch is never reached for month indices below 12. -/
def daysInMonth (y : Int) (m : Nat) : Nat :=
  match m with
  | 0 => 31
  | 1 => if isLeapYear y then 29 else 28
  | 2 => 31
  | 3 => 30
  | 4 => 31
  | 5 => 30
  | 6 => 31
  | 7 => 31
  | 8 => 30
  | 9 => 31
  | 10 => 30
  | _ => 31

/-- Normalisation of a field triple whose `day` component may exceed the
month length, with explicit fuel (the fuel `day` always suffices because
each step removes at least 28 days).  This realises the ECMAScript
`MakeDay` behaviour: the result is the `day`-th day counting from the
first of month `m`, overflowing into later months. -/
def normDaysAux : Nat → Int → Nat → Nat → CalDate
  | 0, y, m, day => ⟨y, m, day⟩
  | fuel + 1, y, m, day =>
    if day ≤ daysInMonth y m then ⟨y, m, day⟩
    else if m = 11 then normDaysAux fuel (y + 1) 0 (day - daysInMonth y m)
    else normDaysAux fuel y (m + 1) (day - daysInMonth y m)

/-- The `day`-th day counting from the first of month `m` of year `y`. -/
def normDays (y : Int) (m : Nat) (day : Nat) : CalDate :=
  normDaysAux day y m day

/-- `date-utils.js` `addDays`: `setDate(getDate() + n)`. -/
def addDays (d : CalDate) (n : Nat) : CalDate :=
  normDays d.year d.month (d.day + n)

/-- `date-utils.js` `addMonths`: `setMonth(getMonth() + n)`.  Per the
ECMAScript specification the target year/month are obtained by carrying
the month index, and the day-of-month is kept, overflowing into the
following month when the target month is too short. -/
def addMonths (d : CalDate) (n : Nat) : CalDate :=
  normDays (d.year + ((d.month + n) / 12 : Nat)) ((d.month + n) % 12) d.day

/-- `date-utils.js` `addYears`: `setFullYear(getFullYear() + n)`. -/
def addYears (d : CalDate) (n : Nat) : CalDate :=
  normDays (d.year + n) d.month d.day

/-- A well-formed calendar date. -/
def CalDate.Valid (d : CalDate) : Prop :=
  d.month < 12 ∧ 1 ≤ d.day ∧ d.day ≤ daysInMonth d.year d.month

instance (d : CalDate) : Decidable d.Valid := by
  unfold CalDate.Valid; infer_instance

/-- Calendar ordering, as obtained in JS by comparing the underlying
timestamps (at day granularity this is the lexicographic order). -/
def dateLE (a b : CalDate) : Bool :=
  if a.year ≠ b.year then a.year < b.year
  else if a.month ≠ b.month then a.month < b.month
  else a.day ≤ b.day

/-- `date-utils.js` `isWithinRange(date, startDate, endDate)`:
`d >= start && d <= end`. -/
def isWithinRange (d start stop : CalDate) : Bool :=
  dateLE start d && dateLE d stop

/-- Billing-cycle descriptor `{type, customDays}`.  `customDays` is
`none` when the JS field is `null`/absent. -/
structure BillingCycle where
  type : String
  customDays : Option Nat
deriving DecidableEq, Repr

/-- JS numeric truthiness default `x || dflt` for an optional number:
`null`/absent and `0` both fall back to the default. -/
def numOrN (o : Option Nat) (dflt : Nat) : Nat :=
  match o with
  | some k => if k = 0 then dflt else k
  | none => dflt

/-- JS string truthiness default `s || dflt`: `null`/absent and the
empty string both fall back to the default. -/
def strOr (o : Option String) (dflt : String) : String :=
  match o with
  | some s => if s = "" then dflt else s
  | none => dflt

/-- JS `s || null` applied to an optional string field. -/
def strOrNull (o : Option String) : Option String :=
  match o with
  | some s => if s = "" then none else some s
  | none => none

/-- JS rational truthiness default `x || dflt`. -/
def ratOr (o : Option ℚ) (dflt : ℚ) : ℚ :=
  match o with
  | some x => if x = 0 then dflt else x
  | none => dflt

/-- `date-utils.js` `calculateNextBillingDate(currentDate, billingCycle)`:
the `switch` on `billingCycle.type`, whose `default` arm applies the
monthly rule, and whose `custom` arm adds `customDays || 30` days. -/
def calculateNextBillingDate (d : CalDate) (c : BillingCycle) : CalDate :=
  if c.type = "daily" then addDays d 1
  else if c.type = "weekly" then addDays d 7
  else if c.type = "monthly" then addMonths d 1
  else if c.type = "quarterly" then addMonths d 3
  else if c.type = "yearly" then addYears d 1
  else if c.type = "custom" then addDays d (numOrN c.customDays 30)
  else addMonths d 1

/-- A recorded payment `{date, amount, currency}`. -/
structure Payment where
  date : CalDate
  amount : ℚ
  currency : String
deriving DecidableEq, Repr

/-- The `Subscription` model (`models/subscription.js`). -/
structure Subscription where
  id : String
  name : String
  cost : ℚ
  currency : String
  billingCycle : BillingCycle
  nextBillingDate : CalDate
  category : String
  notes : String
  paymentMethod : String
  isActive : Bool
  reminderDays : List Nat
  createdAt : CalDate
  updatedAt : CalDate
  history : List Payment
deriving DecidableEq, Repr

/-- `Subscription.calculateNextBillingDate` (`models/subscription.js`):
unlike the `date-utils.js` function, its `custom` arm only moves the date
when `customDays` is truthy, and its `default` arm leaves the date
unchanged (`default: break`). -/
def Subscription.calculateNextBillingDate (s : Subscription) : CalDate :=
  if s.billingCycle.type = "daily" then addDays s.nextBillingDate 1
  else if s.billingCycle.type = "weekly" then addDays s.nextBillingDate 7
  else if s.billingCycle.type = "monthly" then addMonths s.nextBillingDate 1
  else if s.billingCycle.type = "quarterly" then addMonths s.nextBillingDate 3
  else if s.billingCycle.type = "yearly" then addYears s.nextBillingDate 1
  else if s.billingCycle.type = "custom" then
    match s.billingCycle.customDays with
    | some k => if k = 0 then s.nextBillingDate else addDays s.nextBillingDate k
    | none => s.nextBillingDate
  else s.nextBillingDate

/-- `Subscription.recordPayment`: pushes `{date: nextBillingDate, amount:
cost, currency}` onto `history`, then advances `nextBillingDate` by the
model's own `calculateNextBillingDate`, then stamps `updatedAt`. -/
def Subscription.recordPayment (s : Subscription) (now : CalDate) : Subscription :=
  { s with
    history := s.history ++ [⟨s.nextBillingDate, s.cost, s.currency⟩]
    nextBillingDate := s.calculateNextBillingDate
    updatedAt := now }

/-! ### Specification-side calendar formulations

These definitions restate, in the spec's own vocabulary, what the claims
say about the date arithmetic: `nextDay`/`plusDays` is literal "plus `n`
days" day-by-day succession, `clampedMonthStep` is the month step as the
claim words it (day-of-month clamped to the last valid day), and
`overflowMonthly`/`overflowYearly` is the amended wording (day-of-month
preserved when the target month has it, otherwise overflowing into the
following month by the excess days). -/

/-- The next calendar day. -/
def nextDay (d : CalDate) : CalDate :=
  if d.day < daysInMonth d.year d.month then ⟨d.year, d.month, d.day + 1⟩
  else if d.month = 11 then ⟨d.year + 1, 0, 1⟩
  else ⟨d.year, d.month + 1, 1⟩

/-- `n` successive calendar days after `d`. -/
def plusDays (d : CalDate) (n : Nat) : CalDate :=
  Nat.iterate nextDay n d

/-- The calendar month following `(y, m)`. -/
def monthAfter (y : Int) (m : Nat) : Int × Nat :=
  if m = 11 then (y + 1, 0) else (y, m + 1)

/-- Month step as claim C1 words it: `n` calendar months later,
day-of-month preserved and clamped to the last valid day of the target
month when it is shorter. -/
def clampedMonthStep (d : CalDate) (n : Nat) : CalDate :=
  ⟨d.year + ((d.month + n) / 12 : Nat), (d.month + n) % 12,
   min d.day (daysInMonth (d.year + ((d.month + n) / 12 : Nat)) ((d.month + n) % 12))⟩

/-- Month step as the code actually behaves: day-of-month preserved when
the target month has that day, otherwise the excess days spill into the
month after the target. -/
def overflowMonthly (d : CalDate) (n : Nat) : CalDate :=
  if d.day ≤ daysInMonth (d.year + ((d.month + n) / 12 : Nat)) ((d.month + n) % 12) then
    ⟨d.year + ((d.month + n) / 12 : Nat), (d.month + n) % 12, d.day⟩
  else
    ⟨(monthAfter (d.year + ((d.month + n) / 12 : Nat)) ((d.month + n) % 12)).1,
     (monthAfter (d.year + ((d.month + n) / 12 : Nat)) ((d.month + n) % 12)).2,
     d.day - daysInMonth (d.year + ((d.month + n) / 12 : Nat)) ((d.month + n) % 12)⟩

/-- Year step with the same overflow behaviour. -/
def overflowYearly (d : CalDate) : CalDate :=
  if d.day ≤ daysInMonth (d.year + 1) d.month then ⟨d.year + 1, d.month, d.day⟩
  else
    ⟨(monthAfter (d.year + 1) d.month).1, (monthAfter (d.year + 1) d.month).2,
     d.day - daysInMonth (d.year + 1) d.month⟩

/-- The amended claim-C1 rules: daily/weekly/custom add literal calendar
days (30 when `customDays` is unset or zero), monthly/quarterly/yearly
step fields with overflow instead of clamping. -/
def amendedNextBilling (d : CalDate) (c : BillingCycle) : CalDate :=
  if c.type = "daily" then plusDays d 1
  else if c.type = "weekly" then plusDays d 7
  else if c.type = "monthly" then overflowMonthly d 1
  else if c.type = "quarterly" then overflowMonthly d 3
  else if c.type = "yearly" then overflowYearly d
  else plusDays d (numOrN c.customDays 30)

/-! ### Validation, constructors and services -/

/-- The six recognised billing-cycle types. -/
def cycleTypes : List String :=
  ["daily", "weekly", "monthly", "quarterly", "yearly", "custom"]

/-- JS `String.prototype.trim`: strip leading and trailing whitespace. -/
def trimWS (s : String) : String :=
  ⟨((s.data.dropWhile Char.isWhitespace).reverse.dropWhile Char.isWhitespace).reverse⟩

/-- `Subscription.validate`.  The JS `!this.nextBillingDate` check cannot
fire in this model because the constructor always stores a date, so it
contributes no message. -/
def Subscription.validate (s : Subscription) : List String :=
  (if trimWS s.name = "" then ["Name is required"] else []) ++
  (if s.cost ≤ 0 then ["Cost must be greater than 0"] else []) ++
  (if s.currency = "" then ["Currency is required"] else []) ++
  (if cycleTypes.contains s.billingCycle.type then [] else ["Invalid billing cycle type"]) ++
  (if s.billingCycle.type = "custom" ∧
      (s.billingCycle.customDays = none ∨ s.billingCycle.customDays = some 0)
   then ["Custom billing cycle requires valid number of days"] else [])

/-- Constructor input for `new Subscription(data)`: `none` models an
absent (or `null`) JS field. -/
structure SubscriptionData where
  id : Option String := none
  name : Option String := none
  cost : Option ℚ := none
  currency : Option String := none
  billingCycle : Option BillingCycle := none
  nextBillingDate : Option CalDate := none
  category : Option String := none
  notes : Option String := none
  paymentMethod : Option String := none
  isActive : Option Bool := none
  reminderDays : Option (List Nat) := none
  createdAt : Option CalDate := none
  updatedAt : Option CalDate := none
  history : Option (List Payment) := none
deriving DecidableEq, Repr

/-- The `Subscription` constructor.  `freshId` stands for the
`generateUUID()` call and `now` for `new Date()`. -/
def mkSubscription (data : SubscriptionData) (freshId : String) (now : CalDate) :
    Subscription :=
  { id := strOr data.id freshId
    name := data.name.getD ""
    cost := data.cost.getD 0
    currency := strOr data.currency "USD"
    billingCycle := data.billingCycle.getD ⟨"monthly", none⟩
    nextBillingDate := data.nextBillingDate.getD now
    category := strOr data.category "Other"
    notes := data.notes.getD ""
    paymentMethod := data.paymentMethod.getD ""
    isActive := data.isActive.getD true
    reminderDays := data.reminderDays.getD [3]
    createdAt := data.createdAt.getD now
    updatedAt := data.updatedAt.getD now
    history := data.history.getD [] }

/-- `SubscriptionService.create`: construct, validate, and either throw
the joined error list (collection untouched) or push and return. -/
def SubscriptionService.create (subs : List Subscription) (data : SubscriptionData)
    (freshId : String) (now : CalDate) :
    List Subscription × Except String Subscription :=
  let s := mkSubscription data freshId now
  let errors := s.validate
  if errors.isEmpty then (subs ++ [s], Except.ok s)
  else (subs, Except.error (String.intercalate ", " errors))

/-- The object-spread merge `{...existing.toJSON(), ...data, id, createdAt,
updatedAt}` performed by `SubscriptionService.update`: fields present in
`data` win, `id`/`createdAt` are pinned to the existing record and
`updatedAt` to the current time. -/
def mergeData (existing : Subscription) (data : SubscriptionData) (now : CalDate) :
    SubscriptionData :=
  { id := some existing.id
    name := data.name <|> some existing.name
    cost := data.cost <|> some existing.cost
    currency := data.currency <|> some existing.currency
    billingCycle := data.billingCycle <|> some existing.billingCycle
    nextBillingDate := data.nextBillingDate <|> some existing.nextBillingDate
    category := data.category <|> some existing.category
    notes := data.notes <|> some existing.notes
    paymentMethod := data.paymentMethod <|> some existing.paymentMethod
    isActive := data.isActive <|> some existing.isActive
    reminderDays := data.reminderDays <|> some existing.reminderDays
    createdAt := some existing.createdAt
    updatedAt := some now
    history := data.history <|> some existing.history }

/-- `SubscriptionService.update`: find by id, merge, validate, and either
throw (collection untouched) or replace in place. -/
def SubscriptionService.update (subs : List Subscription) (id : String)
    (data : SubscriptionData) (freshId : String) (now : CalDate) :
    List Subscription × Except String Subscription :=
  match subs.findIdx? (fun s => s.id == id) with
  | none => (subs, Except.error "Subscription not found")
  | some i =>
    let existing := (subs[i]?).getD (mkSubscription {} "" now)
    let updated := mkSubscription (mergeData existing data now) freshId now
    let errors := updated.validate
    if errors.isEmpty then (subs.set i updated, Except.ok updated)
    else (subs, Except.error (String.intercalate ", " errors))

/-- A budget period window.  The JS field `end` is called `stop` here
because `end` is a Lean keyword. -/
structure BudgetPeriod where
  start : CalDate
  stop : CalDate
deriving DecidableEq, Repr

/-- The `Budget` model (`models/budget.js`). -/
structure Budget where
  id : String
  type : String
  amount : ℚ
  currency : String
  category : Option String
  period : BudgetPeriod
  alertThreshold : ℚ
  isActive : Bool
  createdAt : CalDate
  updatedAt : CalDate
deriving DecidableEq, Repr

/-- `Budget.calculatePeriodEnd`: one month after `now` for `monthly` and
any unknown type, one year after for `yearly`. -/
def calculatePeriodEnd (type : String) (now : CalDate) : CalDate :=
  if type = "yearly" then addYears now 1 else addMonths now 1

/-- Constructor input for `new Budget(data)`. -/
structure BudgetData where
  id : Option String := none
  type : Option String := none
  amount : Option ℚ := none
  currency : Option String := none
  category : Option String := none
  period : Option BudgetPeriod := none
  alertThreshold : Option ℚ := none
  isActive : Option Bool := none
  createdAt : Option CalDate := none
  updatedAt : Option CalDate := none
deriving DecidableEq, Repr

/-- The `Budget` constructor.  Note `data.alertThreshold || 80`: a zero
threshold is falsy in JS and therefore replaced by the default 80. -/
def mkBudget (data : BudgetData) (freshId : String) (now : CalDate) : Budget :=
  { id := strOr data.id freshId
    type := strOr data.type "monthly"
    amount := data.amount.getD 0
    currency := strOr data.currency "USD"
    category := strOrNull data.category
    period := data.period.getD ⟨now, calculatePeriodEnd (strOr data.type "monthly") now⟩
    alertThreshold := ratOr data.alertThreshold 80
    isActive := data.isActive.getD true
    createdAt := data.createdAt.getD now
    updatedAt := data.updatedAt.getD now }

/-- `Budget.validate`. -/
def Budget.validate (b : Budget) : List String :=
  (if b.amount ≤ 0 then ["Budget amount must be greater than 0"] else []) ++
  (if (["monthly", "yearly", "category"] : List String).contains b.type then []
   else ["Invalid budget type"]) ++
  (if b.alertThreshold < 0 ∨ 100 < b.alertThreshold
   then ["Alert threshold must be between 0 and 100"] else [])

/-- `Budget.calculatePercentageUsed`: guard against a zero amount, else
`(spent / amount) * 100`. -/
def Budget.calculatePercentageUsed (b : Budget) (spent : ℚ) : ℚ :=
  if b.amount = 0 then 0 else spent / b.amount * 100

/-- `Budget.getAlertLevel`: the four severity branches, checked in
order. -/
def Budget.getAlertLevel (b : Budget) (spent : ℚ) : String :=
  if 100 ≤ b.calculatePercentageUsed spent then "danger"
  else if b.alertThreshold ≤ b.calculatePercentageUsed spent then "warning"
  else if b.alertThreshold * 0.75 ≤ b.calculatePercentageUsed spent then "info"
  else "success"

/-- `BudgetService.create`. -/
def BudgetService.create (budgets : List Budget) (data : BudgetData)
    (freshId : String) (now : CalDate) : List Budget × Except String Budget :=
  let b := mkBudget data freshId now
  let errors := b.validate
  if errors.isEmpty then (budgets ++ [b], Except.ok b)
  else (budgets, Except.error (String.intercalate ", " errors))

/-- The object-spread merge performed by `BudgetService.update`. -/
def mergeBudgetData (existing : Budget) (data : BudgetData) (now : CalDate) :
    BudgetData :=
  { id := some existing.id
    type := data.type <|> some existing.type
    amount := data.amount <|> some existing.amount
    currency := data.currency <|> some existing.currency
    category := data.category <|> existing.category
    period := data.period <|> some existing.period
    alertThreshold := data.alertThreshold <|> some existing.alertThreshold
    isActive := data.isActive <|> some existing.isActive
    createdAt := some existing.createdAt
    updatedAt := some now }

/-- `BudgetService.update`. -/
def BudgetService.update (budgets : List Budget) (id : String) (data : BudgetData)
    (freshId : String) (now : CalDate) : List Budget × Except String Budget :=
  match budgets.findIdx? (fun b => b.id == id) with
  | none => (budgets, Except.error "Budget not found")
  | some i =>
    let existing := (budgets[i]?).getD (mkBudget {} "" now)
    let updated := mkBudget (mergeBudgetData existing data now) freshId now
    let errors := updated.validate
    if errors.isEmpty then (budgets.set i updated, Except.ok updated)
    else (budgets, Except.error (String.intercalate ", " errors))

/-- `BudgetService.getSpendingForBudget`: iterate over the subscriptions,
skip non-matching categories (JS truthiness on the filter), add each
history payment inside the period, then add the cost once for an active
subscription whose next billing date is inside the period. -/
def getSpendingForBudget (b : Budget) (subs : List Subscription) : ℚ :=
  subs.foldl
    (fun spent sub =>
      if (match b.category with
          | some c => c != "" && sub.category != c
          | none => false) then spent
      else
        let spent := sub.history.foldl
          (fun acc p =>
            if isWithinRange p.date b.period.start b.period.stop then acc + p.amount
            else acc)
          spent
        if sub.isActive && isWithinRange sub.nextBillingDate b.period.start b.period.stop
        then spent + sub.cost
        else spent)
    0

/-- Claim C3's category filter, worded from the spec: a `null` filter
matches every subscription, otherwise the categories must be equal. -/
def budgetMatches (b : Budget) (s : Subscription) : Bool :=
  match b.category with
  | none => true
  | some c => s.category == c

/-- `SubscriptionService.getSubscriptionMonthlyCost`: the
monthly-equivalent normalisation switch (no `default` arm, so an unknown
type keeps the raw cost). -/
def getSubscriptionMonthlyCost (s : Subscription) : ℚ :=
  if s.billingCycle.type = "daily" then s.cost * 30
  else if s.billingCycle.type = "weekly" then s.cost * 4
  else if s.billingCycle.type = "monthly" then s.cost
  else if s.billingCycle.type = "quarterly" then s.cost / 3
  else if s.billingCycle.type = "yearly" then s.cost / 12
  else if s.billingCycle.type = "custom" then
    s.cost / ((numOrN s.billingCycle.customDays 30 : Nat) : ℚ) * 30
  else s.cost

/-- `SubscriptionService.getTotalMonthlyCost`: reduce over the active
subscriptions with the same inline normalisation switch. -/
def getTotalMonthlyCost (subs : List Subscription) : ℚ :=
  (subs.filter (fun s => s.isActive)).foldl
    (fun total sub => total + getSubscriptionMonthlyCost sub) 0

/-! ### CSV export (`main.js`) -/

/-- `str.replace(/"/g, '""')`: double every double-quote character. -/
def dupQuotesList : List Char → List Char
  | [] => []
  | c :: cs => if c = '"' then '"' :: '"' :: dupQuotesList cs else c :: dupQuotesList cs

/-- String form of `dupQuotesList`. -/
def dupQuotes (s : String) : String :=
  ⟨dupQuotesList s.data⟩

/-- `escapeCSV`: quote (doubling embedded quotes) exactly when the field
contains a comma, a double quote or a newline. -/
def escapeCSV (s : String) : String :=
  if s.data.contains ',' || s.data.contains '"' || s.data.contains '\n' then
    "\"" ++ dupQuotes s ++ "\""
  else s

/-- `formatBillingCycle`: capitalised type, `"Monthly"` when missing. -/
def formatBillingCycleCSV (c : Option BillingCycle) : String :=
  match c with
  | none => "Monthly"
  | some cy => if cy.type = "" then "Monthly" else cy.type.capitalize

/-- Zero-pad a number below 10 to two digits. -/
def pad2 (n : Nat) : String :=
  if n < 10 then "0" ++ toString n else toString n

/-- `formatDate` of the CSV exporter: `toISOString().split('T')[0]`,
i.e. `YYYY-MM-DD` (modelled for four-digit years); an absent date gives
the empty string. -/
def dateToCSV (d : Option CalDate) : String :=
  match d with
  | none => ""
  | some d => toString d.year ++ "-" ++ pad2 (d.month + 1) ++ "-" ++ pad2 d.day

/-- A subscription record as received by the export IPC handler: plain
JSON data, with numeric cost already rendered by JS `String(...)`. -/
structure CSVSub where
  name : String
  cost : String
  currency : Option String := none
  billingCycle : Option BillingCycle := none
  nextBillingDate : Option CalDate := none
  category : Option String := none
  isActive : Bool := true
  notes : Option String := none
  createdAt : Option CalDate := none
deriving DecidableEq, Repr

/-- The CSV header columns of `convertToCSV`. -/
def csvHeaders : List String :=
  ["Name", "Cost", "Currency", "Billing Cycle", "Next Billing Date", "Category",
   "Status", "Notes", "Created Date"]

/-- One CSV data row. -/
def csvRow (sub : CSVSub) : String :=
  String.intercalate ","
    [escapeCSV sub.name,
     escapeCSV sub.cost,
     escapeCSV (strOr sub.currency "USD"),
     escapeCSV (formatBillingCycleCSV sub.billingCycle),
     escapeCSV (dateToCSV sub.nextBillingDate),
     escapeCSV (strOr sub.category "Other"),
     escapeCSV (if sub.isActive then "Active" else "Inactive"),
     escapeCSV (sub.notes.getD ""),
     escapeCSV (dateToCSV sub.createdAt)]

/-- `convertToCSV`: an empty subscription list returns a short header
line (without the Created Date column) followed by a newline; otherwise
the nine-column header followed by one row per subscription, joined by
newlines. -/
def convertToCSV (subs : List CSVSub) : String :=
  if subs.isEmpty then
    "Name,Cost,Currency,Billing Cycle,Next Billing Date,Category,Status,Notes\n"
  else
    String.intercalate "\n" (String.intercalate "," csvHeaders :: subs.map csvRow)

/-! ### Concrete sample records used by witnesses and counterexamples -/

/-- A subscription with an unrecognised billing-cycle type. -/
def exUnknownSub : Subscription :=
  { id := "s1", name := "Example", cost := 12, currency := "USD"
    billingCycle := ⟨"biweekly", none⟩, nextBillingDate := ⟨2024, 0, 15⟩
    category := "Other", notes := "", paymentMethod := "", isActive := true
    reminderDays := [3], createdAt := ⟨2024, 0, 1⟩, updatedAt := ⟨2024, 0, 1⟩
    history := [] }

/-- A yearly subscription of cost 120. -/
def exYearlySub : Subscription :=
  { id := "s2", name := "Yearly", cost := 120, currency := "USD"
    billingCycle := ⟨"yearly", none⟩, nextBillingDate := ⟨2024, 0, 20⟩
    category := "Other", notes := "", paymentMethod := "", isActive := true
    reminderDays := [3], createdAt := ⟨2024, 0, 1⟩, updatedAt := ⟨2024, 0, 1⟩
    history := [] }

/-- A custom 10-day subscription of cost 10. -/
def exCustomSub : Subscription :=
  { id := "s3", name := "Custom", cost := 10, currency := "USD"
    billingCycle := ⟨"custom", some 10⟩, nextBillingDate := ⟨2024, 0, 20⟩
    category := "Other", notes := "", paymentMethod := "", isActive := true
    reminderDays := [3], createdAt := ⟨2024, 0, 1⟩, updatedAt := ⟨2024, 0, 1⟩
    history := [] }

/-- A daily subscription. -/
def exDailySub : Subscription :=
  { id := "s4", name := "Daily", cost := 2, currency := "USD"
    billingCycle := ⟨"daily", none⟩, nextBillingDate := ⟨2024, 0, 20⟩
    category := "Other", notes := "", paymentMethod := "", isActive := true
    reminderDays := [3], createdAt := ⟨2024, 0, 1⟩, updatedAt := ⟨2024, 0, 1⟩
    history := [] }

/-- A subscription with one January payment, used for the spending
witness. -/
def exSpendSub : Subscription :=
  { id := "s5", name := "Spend", cost := 12, currency := "USD"
    billingCycle := ⟨"yearly", none⟩, nextBillingDate := ⟨2024, 0, 20⟩
    category := "Other", notes := "", paymentMethod := "", isActive := true
    reminderDays := [3], createdAt := ⟨2024, 0, 1⟩, updatedAt := ⟨2024, 0, 1⟩
    history := [⟨⟨2024, 0, 10⟩, 12, "USD"⟩] }

/-- A monthly overall budget over January 2024. -/
def exBudget : Budget :=
  { id := "b1", type := "monthly", amount := 5, currency := "USD"
    category := none, period := ⟨⟨2024, 0, 1⟩, ⟨2024, 1, 1⟩⟩
    alertThreshold := 80, isActive := true
    createdAt := ⟨2024, 0, 1⟩, updatedAt := ⟨2024, 0, 1⟩ }

/-- Budget constructor input with no threshold given. -/
def exBudgetDataNoThreshold : BudgetData :=
  { type := some "monthly", amount := some 100 }

/-- Budget constructor input with an invalid (absent, hence zero)
amount. -/
def exBadBudgetData : BudgetData :=
  { type := some "monthly" }

/-- Subscription constructor input that passes validation. -/
def exGoodSubData : SubscriptionData :=
  { name := some "Netflix", cost := some 10, currency := some "USD"
    billingCycle := some ⟨"monthly", none⟩, nextBillingDate := some ⟨2024, 0, 20⟩ }

/-- A CSV export record. -/
def exCSVSub : CSVSub :=
  { name := "My, \"Service\"", cost := "9.99", currency := some "USD"
    billingCycle := some ⟨"monthly", none⟩, nextBillingDate := some ⟨2024, 0, 20⟩
    category := some "Other", isActive := true, notes := some "line1\nline2"
    createdAt := some ⟨2024, 0, 1⟩ }

/-! ## Theorems -/

theorem daysInMonth_ge (y : Int) (m : Nat) : 28 ≤ daysInMonth y m := by
  unfold daysInMonth
  split <;> first | omega | (split <;> omega)

theorem daysInMonth_le (y : Int) (m : Nat) : daysInMonth y m ≤ 31 := by
  unfold daysInMonth
  split <;> first | omega | (split <;> omega)

theorem normDaysAux_fuel :
    ∀ (f g : Nat) (y : Int) (m day : Nat), day ≤ f → day ≤ g →
      normDaysAux f y m day = normDaysAux g y m day := by
  intro f
  induction f with
  | zero =>
    intro g y m day hf hg
    interval_cases day
    cases g with
    | zero => rfl
    | succ g => simp [normDaysAux]
  | succ f ih =>
    intro g y m day hf hg
    cases g with
    | zero =>
      interval_cases day
      simp [normDaysAux]
    | succ g =>
      by_cases h : day ≤ daysInMonth y m
      · simp [normDaysAux, h]
      · have hpos : 28 ≤ daysInMonth y m := daysInMonth_ge y m
        have hlt : day - daysInMonth y m < day := by omega
        simp only [normDaysAux, if_neg h]
        split
        · exact ih g (y + 1) 0 _ (by omega) (by omega)
        · exact ih g y (m + 1) _ (by omega) (by omega)

theorem normDays_of_le {y : Int} {m day : Nat} (h : day ≤ daysInMonth y m) :
    normDays y m day = ⟨y, m, day⟩ := by
  cases day with
  | zero => rfl
  | succ d => simp [normDays, normDaysAux, h]

theorem normDays_of_gt {y : Int} {m day : Nat} (h : daysInMonth y m < day) :
    normDays y m day =
      if m = 11 then normDays (y + 1) 0 (day - daysInMonth y m)
      else normDays y (m + 1) (day - daysInMonth y m) := by
  have hpos : 28 ≤ daysInMonth y m := daysInMonth_ge y m
  obtain ⟨d, rfl⟩ : ∃ d, day = d + 1 := ⟨day - 1, by omega⟩
  simp only [normDays, normDaysAux, if_neg (by omega : ¬ d + 1 ≤ daysInMonth y m)]
  split
  · exact normDaysAux_fuel d _ (y + 1) 0 _ (by omega) (by omega)
  · exact normDaysAux_fuel d _ y (m + 1) _ (by omega) (by omega)

theorem nextDay_normDays :
    ∀ (day : Nat) (y : Int) (m : Nat), m < 12 → 1 ≤ day →
      nextDay (normDays y m day) = normDays y m (day + 1) := by
  intro day
  induction day using Nat.strong_induction_on with
  | _ day ih =>
    intro y m hm hd
    by_cases h : day ≤ daysInMonth y m
    · rw [normDays_of_le h]
      by_cases h2 : day < daysInMonth y m
      · rw [normDays_of_le (by omega)]
        simp [nextDay, h2]
      · have hday : day = daysInMonth y m := by omega
        have hgt : daysInMonth y m < day + 1 := by omega
        have h28 : 28 ≤ daysInMonth y m := daysInMonth_ge y m
        rw [normDays_of_gt hgt]
        by_cases h11 : m = 11
        · rw [if_pos h11, show day + 1 - daysInMonth y m = 1 by omega,
            normDays_of_le (le_trans (by omega) (daysInMonth_ge (y + 1) 0))]
          simp [nextDay, h11, hday]
        · rw [if_neg h11, show day + 1 - daysInMonth y m = 1 by omega,
            normDays_of_le (le_trans (by omega) (daysInMonth_ge y (m + 1)))]
          simp [nextDay, h11, hday]
    · have hgt : daysInMonth y m < day := by omega
      have h28 : 28 ≤ daysInMonth y m := daysInMonth_ge y m
      rw [normDays_of_gt hgt, normDays_of_gt (by omega : daysInMonth y m < day + 1)]
      by_cases h11 : m = 11
      · rw [if_pos h11, if_pos h11,
          show day + 1 - daysInMonth y m = day - daysInMonth y m + 1 by omega]
        exact ih _ (by omega) (y + 1) 0 (by omega) (by omega)
      · rw [if_neg h11, if_neg h11,
          show day + 1 - daysInMonth y m = day - daysInMonth y m + 1 by omega]
        exact ih _ (by omega) y (m + 1) (by omega) (by omega)

theorem addDays_eq_plusDays (d : CalDate) (h : d.Valid) (n : Nat) :
    addDays d n = plusDays d n := by
  obtain ⟨hm, hd1, hd2⟩ := h
  induction n with
  | zero =>
    simp only [addDays, Nat.add_zero, plusDays, Nat.iterate]
    rw [normDays_of_le hd2]
  | succ n ih =>
    have : d.day + (n + 1) = d.day + n + 1 := by omega
    rw [addDays, this, ← nextDay_normDays (d.day + n) d.year d.month hm (by omega)]
    rw [plusDays, Function.iterate_succ_apply', ← plusDays, ← ih]
    rfl

theorem normDays_small {y : Int} {m day : Nat} (h1 : 1 ≤ day)
    (h31 : day ≤ 31) :
    normDays y m day =
      if day ≤ daysInMonth y m then ⟨y, m, day⟩
      else ⟨(monthAfter y m).1, (monthAfter y m).2, day - daysInMonth y m⟩ := by
  by_cases h : day ≤ daysInMonth y m
  · rw [if_pos h, normDays_of_le h]
  · have h28 : 28 ≤ daysInMonth y m := daysInMonth_ge y m
    rw [if_neg h, normDays_of_gt (by omega)]
    by_cases h11 : m = 11
    · rw [if_pos h11,
        normDays_of_le (le_trans (by omega) (daysInMonth_ge (y + 1) 0))]
      simp [monthAfter, h11]
    · rw [if_neg h11,
        normDays_of_le (le_trans (by omega) (daysInMonth_ge y (m + 1)))]
      simp [monthAfter, h11]

theorem addMonths_eq_overflow (d : CalDate) (h : d.Valid) (n : Nat) :
    addMonths d n = overflowMonthly d n := by
  obtain ⟨-, hd1, hd2⟩ := h
  have h31 : d.day ≤ 31 := le_trans hd2 (daysInMonth_le d.year d.month)
  rw [addMonths, normDays_small hd1 h31]
  rw [overflowMonthly]

theorem addYears_eq_overflow (d : CalDate) (h : d.Valid) :
    addYears d 1 = overflowYearly d := by
  obtain ⟨-, hd1, hd2⟩ := h
  have h31 : d.day ≤ 31 := le_trans hd2 (daysInMonth_le d.year d.month)
  rw [addYears, normDays_small hd1 h31]
  rw [overflowYearly]
  norm_num

/-- C1: the billing-cycle step rules.  The claim as frozen asserts that
the monthly step clamps the day-of-month to the last valid day of the
target month; the code (JS `setMonth`) instead lets the excess days
overflow into the following month: one month after 2024-01-31 is
2024-03-02, not 2024-02-29.  It also asserts the 30-day fallback only for
an unset `customDays`, while the code (`customDays || 30`) also applies
it to a zero value. -/
theorem c1_monthly_clamp_counterexample :
    calculateNextBillingDate ⟨2024, 0, 31⟩ ⟨"monthly", none⟩ = ⟨2024, 2, 2⟩ ∧
    clampedMonthStep ⟨2024, 0, 31⟩ 1 = ⟨2024, 1, 29⟩ ∧
    calculateNextBillingDate ⟨2024, 0, 31⟩ ⟨"monthly", none⟩ ≠
      clampedMonthStep ⟨2024, 0, 31⟩ 1 ∧
    calculateNextBillingDate ⟨2024, 0, 15⟩ ⟨"custom", some 0⟩ = ⟨2024, 1, 14⟩ ∧
    calculateNextBillingDate ⟨2024, 0, 15⟩ ⟨"custom", some 0⟩ ≠
      plusDays ⟨2024, 0, 15⟩ 0 := by
  refine ⟨by decide, by decide, by decide, by decide, by decide⟩

/-- C1 (amended): for every valid date and recognised cycle type,
`calculateNextBillingDate` advances by 1 literal calendar day for
`daily`, 7 for `weekly`, `customDays` for `custom` (30 when `customDays`
is unset or zero), and steps the month/year fields by 1, 3 or 12 months
for `monthly`/`quarterly`/`yearly` with the day-of-month preserved when
the target month has that day and otherwise overflowing into the
following month by the excess days (instead of clamping). -/
theorem c1_next_billing_rules (d : CalDate) (c : BillingCycle) (hd : d.Valid)
    (hc : c.type ∈ cycleTypes) :
    calculateNextBillingDate d c = amendedNextBilling d c := by
  have h1 := addDays_eq_plusDays d hd
  have h2 := addMonths_eq_overflow d hd
  have h3 := addYears_eq_overflow d hd
  obtain ⟨t, cd⟩ := c
  simp only [cycleTypes, List.mem_cons, List.not_mem_nil, or_false] at hc
  rcases hc with h | h | h | h | h | h <;> subst h <;>
    simp [calculateNextBillingDate, amendedNextBilling, h1, h2, h3]

theorem c1_next_billing_rules_witness :
    CalDate.Valid ⟨2024, 0, 15⟩ ∧ ("weekly" : String) ∈ cycleTypes ∧
    calculateNextBillingDate ⟨2024, 0, 15⟩ ⟨"weekly", none⟩ =
      amendedNextBilling ⟨2024, 0, 15⟩ ⟨"weekly", none⟩ :=
  ⟨by decide, by decide, c1_next_billing_rules _ _ (by decide) (by decide)⟩

/-- C2: `recordPayment` appends exactly one history entry consisting of
the prior `nextBillingDate`, the cost and the currency, advances
`nextBillingDate` by exactly one application of the model's cycle-step
function, stamps `updatedAt`, and leaves every other field unchanged. -/
theorem c2_record_payment (s : Subscription) (now : CalDate) :
    (s.recordPayment now).history =
      s.history ++ [⟨s.nextBillingDate, s.cost, s.currency⟩] ∧
    (s.recordPayment now).history.length = s.history.length + 1 ∧
    (s.recordPayment now).nextBillingDate = s.calculateNextBillingDate ∧
    (s.recordPayment now).updatedAt = now ∧
    (s.recordPayment now).cost = s.cost ∧
    (s.recordPayment now).currency = s.currency ∧
    (s.recordPayment now).billingCycle = s.billingCycle ∧
    (s.recordPayment now).isActive = s.isActive := by
  simp [Subscription.recordPayment]

/-- C5: the claim asserts that every unrecognised cycle type falls back
to the monthly rule, but the model's own
`Subscription.calculateNextBillingDate` (used by `recordPayment`) has a
bare `default: break` and returns the date unchanged: for the
subscription `exUnknownSub` with type "biweekly" and date 2024-01-15 it
returns 2024-01-15 while the monthly rule gives 2024-02-15. -/
theorem c5_model_unknown_type_counterexample :
    Subscription.calculateNextBillingDate exUnknownSub = ⟨2024, 0, 15⟩ ∧
    calculateNextBillingDate ⟨2024, 0, 15⟩ ⟨"monthly", none⟩ = ⟨2024, 1, 15⟩ ∧
    Subscription.calculateNextBillingDate exUnknownSub ≠
      calculateNextBillingDate ⟨2024, 0, 15⟩ ⟨"monthly", none⟩ := by
  refine ⟨by decide, by decide, by decide⟩

/-- C5 (amended): no error is raised for an unrecognised cycle type by
either implementation (both are total); the `date-utils.js`
`calculateNextBillingDate` falls back to the monthly rule, while the
model's `Subscription.calculateNextBillingDate` instead returns the date
unchanged. -/
theorem c5_unknown_cycle_fallback (d : CalDate) (c : BillingCycle)
    (s : Subscription) (hc : c.type ∉ cycleTypes)
    (hs : s.billingCycle.type ∉ cycleTypes) :
    calculateNextBillingDate d c = calculateNextBillingDate d ⟨"monthly", none⟩ ∧
    Subscription.calculateNextBillingDate s = s.nextBillingDate := by
  simp only [cycleTypes, List.mem_cons, List.not_mem_nil, or_false, not_or] at hc hs
  obtain ⟨hc1, hc2, hc3, hc4, hc5, hc6⟩ := hc
  obtain ⟨hs1, hs2, hs3, hs4, hs5, hs6⟩ := hs
  constructor
  · simp [calculateNextBillingDate, hc1, hc2, hc3, hc4, hc5, hc6]
  · simp [Subscription.calculateNextBillingDate, hs1, hs2, hs3, hs4, hs5, hs6]

theorem c5_unknown_cycle_fallback_witness :
    ("biweekly" : String) ∉ cycleTypes ∧
    exUnknownSub.billingCycle.type ∉ cycleTypes ∧
    (calculateNextBillingDate ⟨2024, 0, 10⟩ ⟨"biweekly", none⟩ =
        calculateNextBillingDate ⟨2024, 0, 10⟩ ⟨"monthly", none⟩ ∧
      Subscription.calculateNextBillingDate exUnknownSub =
        exUnknownSub.nextBillingDate) :=
  ⟨by decide, by decide,
    c5_unknown_cycle_fallback _ _ _ (by decide) (by decide)⟩

theorem foldl_payment_sum (c : Payment → Bool) :
    ∀ (l : List Payment) (a : ℚ),
      l.foldl (fun acc p => if c p then acc + p.amount else acc) a
        = a + ((l.filter c).map Payment.amount).sum := by
  intro l
  induction l with
  | nil => intro a; simp
  | cons p l ih =>
    intro a
    by_cases h : c p <;> simp [List.filter_cons, h, ih, add_assoc]

theorem foldl_add_shift {α : Type} (f : ℚ → α → ℚ) (g : α → ℚ)
    (hf : ∀ a x, f a x = a + g x) :
    ∀ (l : List α) (a : ℚ), l.foldl f a = a + (l.map g).sum := by
  intro l
  induction l with
  | nil => intro a; simp
  | cons x l ih => intro a; simp [hf, ih, add_assoc]

theorem sum_map_ite_filter {α : Type} (p : α → Bool) (h : α → ℚ) :
    ∀ l : List α,
      (l.map (fun x => if p x then h x else 0)).sum = ((l.filter p).map h).sum := by
  intro l
  induction l with
  | nil => rfl
  | cons x l ih => by_cases hx : p x <;> simp [List.filter_cons, hx, ih]

/-- C3: `getSpendingForBudget` is the sum, over the subscriptions passing
the optional category filter (a `null` filter matches all), of every
history payment inside the inclusive period window plus the cost counted
once for an active subscription whose next billing date lies inside the
window; a payment and a coinciding next billing date are both summed.
The hypothesis excludes a `some ""` filter, which the `Budget`
constructor can never produce (JS `data.category || null`). -/
theorem c3_spending_for_budget (b : Budget) (subs : List Subscription)
    (hb : b.category ≠ some "") :
    getSpendingForBudget b subs =
      ((subs.filter (fun s => budgetMatches b s)).map (fun s =>
        (((s.history.filter (fun p =>
            isWithinRange p.date b.period.start b.period.stop)).map
              Payment.amount).sum)
        + (if s.isActive && isWithinRange s.nextBillingDate b.period.start b.period.stop
           then s.cost else 0))).sum := by
  have hbody : ∀ (a : ℚ) (sub : Subscription),
      (if (match b.category with
           | some c => c != "" && sub.category != c
           | none => false) then a
       else
         let a := sub.history.foldl
           (fun acc p =>
             if isWithinRange p.date b.period.start b.period.stop then acc + p.amount
             else acc) a
         if sub.isActive && isWithinRange sub.nextBillingDate b.period.start b.period.stop
         then a + sub.cost
         else a)
      = a + (if budgetMatches b sub then
          (((sub.history.filter (fun p =>
              isWithinRange p.date b.period.start b.period.stop)).map
                Payment.amount).sum)
          + (if sub.isActive &&
                isWithinRange sub.nextBillingDate b.period.start b.period.stop
             then sub.cost else 0)
        else 0) := by
    intro a sub
    cases hcat : b.category with
    | none =>
      dsimp only
      simp only [budgetMatches, hcat, if_true]
      rw [foldl_payment_sum]
      by_cases hr : (sub.isActive &&
          isWithinRange sub.nextBillingDate b.period.start b.period.stop) = true
      · rw [if_pos hr, if_pos hr, if_neg (show ¬(false = true) by decide)]; ring
      · rw [if_neg hr, if_neg hr, if_neg (show ¬(false = true) by decide)]; ring
    | some c =>
      have hc : c ≠ "" := fun h => hb (h ▸ hcat)
      by_cases hmatch : sub.category = c
      · simp only [budgetMatches, hcat, hmatch, beq_self_eq_true, if_pos,
          bne_self_eq_false, Bool.and_false, Bool.false_eq_true, if_false,
          foldl_payment_sum]
        split <;> simp [add_assoc]
      · have h1 : (c != "") = true := bne_iff_ne.mpr hc
        have h2 : (sub.category != c) = true := bne_iff_ne.mpr hmatch
        have h3 : (sub.category == c) = false := beq_eq_false_iff_ne.mpr hmatch
        simp [budgetMatches, hcat, h1, h2, h3]
  rw [getSpendingForBudget, foldl_add_shift _ _ hbody, zero_add,
    sum_map_ite_filter]

theorem c3_spending_for_budget_witness :
    exBudget.category ≠ some "" ∧
    getSpendingForBudget exBudget [exSpendSub] =
      (([exSpendSub].filter (fun s => budgetMatches exBudget s)).map (fun s =>
        (((s.history.filter (fun p =>
            isWithinRange p.date exBudget.period.start exBudget.period.stop)).map
              Payment.amount).sum)
        + (if s.isActive &&
              isWithinRange s.nextBillingDate exBudget.period.start exBudget.period.stop
           then s.cost else 0))).sum :=
  ⟨by decide, c3_spending_for_budget exBudget [exSpendSub] (by decide)⟩

/-- C4: `getAlertLevel` returns `danger` exactly when the percentage used
reaches 100, `warning` exactly when it is below 100 but reaches the
alert threshold, `info` exactly when it is below both but reaches 0.75
times the threshold, and `success` otherwise — the branches are checked
in this order, so exact ties resolve to the higher severity. -/
theorem c4_alert_level (b : Budget) (spent : ℚ) :
    (b.getAlertLevel spent = "danger" ↔ 100 ≤ b.calculatePercentageUsed spent) ∧
    (b.getAlertLevel spent = "warning" ↔
      b.alertThreshold ≤ b.calculatePercentageUsed spent ∧
      b.calculatePercentageUsed spent < 100) ∧
    (b.getAlertLevel spent = "info" ↔
      0.75 * b.alertThreshold ≤ b.calculatePercentageUsed spent ∧
      b.calculatePercentageUsed spent < b.alertThreshold ∧
      b.calculatePercentageUsed spent < 100) ∧
    (b.getAlertLevel spent = "success" ↔
      b.calculatePercentageUsed spent < 0.75 * b.alertThreshold ∧
      b.calculatePercentageUsed spent < b.alertThreshold ∧
      b.calculatePercentageUsed spent < 100) := by
  unfold Budget.getAlertLevel
  split_ifs with h1 h2 h3
  · exact ⟨iff_of_true rfl h1,
      iff_of_false (by decide) (fun h => absurd h1 (not_le.mpr h.2)),
      iff_of_false (by decide) (fun h => absurd h1 (not_le.mpr h.2.2)),
      iff_of_false (by decide) (fun h => absurd h1 (not_le.mpr h.2.2))⟩
  · exact ⟨iff_of_false (by decide) h1,
      iff_of_true rfl ⟨h2, lt_of_not_le h1⟩,
      iff_of_false (by decide) (fun h => absurd h2 (not_le.mpr h.2.1)),
      iff_of_false (by decide) (fun h => absurd h2 (not_le.mpr h.2.1))⟩
  · exact ⟨iff_of_false (by decide) h1,
      iff_of_false (by decide) (fun h => h2 h.1),
      iff_of_true rfl ⟨by linarith, lt_of_not_le h2, lt_of_not_le h1⟩,
      iff_of_false (by decide) (fun h => by linarith [h.1])⟩
  · exact ⟨iff_of_false (by decide) h1,
      iff_of_false (by decide) (fun h => h2 h.1),
      iff_of_false (by decide) (fun h => h3 (by linarith [h.1])),
      iff_of_true rfl ⟨by have := lt_of_not_le h3; linarith,
        lt_of_not_le h2, lt_of_not_le h1⟩⟩

/-- C6: the monthly-equivalent normalisation uses the fixed constants 30
days per month and 4 weeks per month: daily ×30, weekly ×4, monthly
unchanged, quarterly ÷3, yearly ÷12, custom ÷customDays ×30; a yearly
subscription of cost 120 yields 10, a custom 10-day subscription of cost
10 yields 30, and the active-subscription total sums the same
per-subscription normalisation. -/
theorem c6_monthly_equivalent (s : Subscription) (k : Nat) :
    (s.billingCycle.type = "daily" → getSubscriptionMonthlyCost s = s.cost * 30) ∧
    (s.billingCycle.type = "weekly" → getSubscriptionMonthlyCost s = s.cost * 4) ∧
    (s.billingCycle.type = "monthly" → getSubscriptionMonthlyCost s = s.cost) ∧
    (s.billingCycle.type = "quarterly" → getSubscriptionMonthlyCost s = s.cost / 3) ∧
    (s.billingCycle.type = "yearly" → getSubscriptionMonthlyCost s = s.cost / 12) ∧
    (s.billingCycle = ⟨"custom", some k⟩ → 0 < k →
      getSubscriptionMonthlyCost s = s.cost / (k : ℚ) * 30) ∧
    getSubscriptionMonthlyCost exYearlySub = 10 ∧
    getSubscriptionMonthlyCost exCustomSub = 30 ∧
    (∀ subs : List Subscription,
      getTotalMonthlyCost subs =
        ((subs.filter (fun t => t.isActive)).map getSubscriptionMonthlyCost).sum) := by
  refine ⟨?_, ?_, ?_, ?_, ?_, ?_, ?_, ?_, ?_⟩
  · intro h; simp [getSubscriptionMonthlyCost, h]
  · intro h; simp [getSubscriptionMonthlyCost, h]
  · intro h; simp [getSubscriptionMonthlyCost, h]
  · intro h; simp [getSubscriptionMonthlyCost, h]
  · intro h; simp [getSubscriptionMonthlyCost, h]
  · intro h hk
    simp [getSubscriptionMonthlyCost, h, numOrN, hk.ne']
  · norm_num [getSubscriptionMonthlyCost, exYearlySub]
    rw [if_neg (by decide), if_neg (by decide), if_neg (by decide),
      if_neg (by decide)]
  · norm_num [getSubscriptionMonthlyCost, exCustomSub, numOrN]
    rw [if_neg (by decide), if_neg (by decide), if_neg (by decide),
      if_neg (by decide), if_neg (by decide)]
  · intro subs
    rw [getTotalMonthlyCost,
      foldl_add_shift _ getSubscriptionMonthlyCost (fun a x => rfl), zero_add]

theorem c6_monthly_equivalent_witness :
    getSubscriptionMonthlyCost exDailySub = exDailySub.cost * 30 ∧
    getSubscriptionMonthlyCost exCustomSub = exCustomSub.cost / ((10 : Nat) : ℚ) * 30 :=
  ⟨(c6_monthly_equivalent exDailySub 1).1 rfl,
   (c6_monthly_equivalent exCustomSub 10).2.2.2.2.2.1 rfl (by decide)⟩

/-- C7: `calculatePercentageUsed` returns 0 when the amount is 0 (the
division is guarded), and the unclamped `(spent / amount) * 100`
otherwise; in particular spending 12 against the 5-unit budget
`exBudget` yields 240, well above 100. -/
theorem c7_percentage_used (b : Budget) (spent : ℚ) :
    (b.amount = 0 → b.calculatePercentageUsed spent = 0) ∧
    (b.amount ≠ 0 → b.calculatePercentageUsed spent = spent / b.amount * 100) ∧
    Budget.calculatePercentageUsed exBudget 12 = 240 := by
  refine ⟨fun h => ?_, fun h => ?_, ?_⟩
  · simp [Budget.calculatePercentageUsed, h]
  · simp [Budget.calculatePercentageUsed, h]
  · simp [Budget.calculatePercentageUsed, exBudget]
    norm_num

theorem c7_percentage_used_witness :
    exBudget.amount ≠ 0 ∧
    Budget.calculatePercentageUsed exBudget 12 = 12 / exBudget.amount * 100 :=
  ⟨by decide, (c7_percentage_used exBudget 12).2.1 (by decide)⟩

/-- C8: for the create and update operations of both services, a
non-empty validation error list makes the operation fail with the single
aggregate message joining all collected errors while the stored
collection is returned unchanged; an empty error list commits the fully
constructed record (appended for create, replaced in place for update).
No other outcome exists, so no partial application can occur. -/
theorem c8_validation_atomicity :
    (∀ (subs : List Subscription) (data : SubscriptionData) (fid : String)
        (now : CalDate),
      ((mkSubscription data fid now).validate ≠ [] →
        SubscriptionService.create subs data fid now =
          (subs, Except.error
            (String.intercalate ", " (mkSubscription data fid now).validate))) ∧
      ((mkSubscription data fid now).validate = [] →
        SubscriptionService.create subs data fid now =
          (subs ++ [mkSubscription data fid now],
            Except.ok (mkSubscription data fid now)))) ∧
    (∀ (budgets : List Budget) (data : BudgetData) (fid : String) (now : CalDate),
      ((mkBudget data fid now).validate ≠ [] →
        BudgetService.create budgets data fid now =
          (budgets, Except.error
            (String.intercalate ", " (mkBudget data fid now).validate))) ∧
      ((mkBudget data fid now).validate = [] →
        BudgetService.create budgets data fid now =
          (budgets ++ [mkBudget data fid now], Except.ok (mkBudget data fid now)))) ∧
    (∀ (subs : List Subscription) (id : String) (data : SubscriptionData)
        (fid : String) (now : CalDate) (i : Nat),
      subs.findIdx? (fun s => s.id == id) = some i →
      ((mkSubscription
          (mergeData ((subs[i]?).getD (mkSubscription {} "" now)) data now)
          fid now).validate ≠ [] →
        SubscriptionService.update subs id data fid now =
          (subs, Except.error (String.intercalate ", "
            (mkSubscription
              (mergeData ((subs[i]?).getD (mkSubscription {} "" now)) data now)
              fid now).validate))) ∧
      ((mkSubscription
          (mergeData ((subs[i]?).getD (mkSubscription {} "" now)) data now)
          fid now).validate = [] →
        SubscriptionService.update subs id data fid now =
          (subs.set i
            (mkSubscription
              (mergeData ((subs[i]?).getD (mkSubscription {} "" now)) data now)
              fid now),
            Except.ok
              (mkSubscription
                (mergeData ((subs[i]?).getD (mkSubscription {} "" now)) data now)
                fid now)))) ∧
    (∀ (budgets : List Budget) (id : String) (data : BudgetData) (fid : String)
        (now : CalDate) (i : Nat),
      budgets.findIdx? (fun b => b.id == id) = some i →
      ((mkBudget (mergeBudgetData ((budgets[i]?).getD (mkBudget {} "" now)) data now)
          fid now).validate ≠ [] →
        BudgetService.update budgets id data fid now =
          (budgets, Except.error (String.intercalate ", "
            (mkBudget
              (mergeBudgetData ((budgets[i]?).getD (mkBudget {} "" now)) data now)
              fid now).validate))) ∧
      ((mkBudget (mergeBudgetData ((budgets[i]?).getD (mkBudget {} "" now)) data now)
          fid now).validate = [] →
        BudgetService.update budgets id data fid now =
          (budgets.set i
            (mkBudget
              (mergeBudgetData ((budgets[i]?).getD (mkBudget {} "" now)) data now)
              fid now),
            Except.ok
              (mkBudget
                (mergeBudgetData ((budgets[i]?).getD (mkBudget {} "" now)) data now)
                fid now)))) := by
  refine ⟨?_, ?_, ?_, ?_⟩
  · intro subs data fid now
    constructor
    · intro h
      simp only [SubscriptionService.create]
      rw [if_neg (by simpa [List.isEmpty_iff] using h)]
    · intro h
      simp only [SubscriptionService.create]
      rw [if_pos (by simp [List.isEmpty_iff, h])]
  · intro budgets data fid now
    constructor
    · intro h
      simp only [BudgetService.create]
      rw [if_neg (by simpa [List.isEmpty_iff] using h)]
    · intro h
      simp only [BudgetService.create]
      rw [if_pos (by simp [List.isEmpty_iff, h])]
  · intro subs id data fid now i hfind
    constructor
    · intro h
      simp only [SubscriptionService.update, hfind]
      rw [if_neg (by simpa [List.isEmpty_iff] using h)]
    · intro h
      simp only [SubscriptionService.update, hfind]
      rw [if_pos (by simp [List.isEmpty_iff, h])]
  · intro budgets id data fid now i hfind
    constructor
    · intro h
      simp only [BudgetService.update, hfind]
      rw [if_neg (by simpa [List.isEmpty_iff] using h)]
    · intro h
      simp only [BudgetService.update, hfind]
      rw [if_pos (by simp [List.isEmpty_iff, h])]

theorem c8_validation_atomicity_witness :
    (mkBudget exBadBudgetData "b9" ⟨2024, 0, 1⟩).validate ≠ [] ∧
    BudgetService.create [] exBadBudgetData "b9" ⟨2024, 0, 1⟩ =
      ([], Except.error (String.intercalate ", "
        (mkBudget exBadBudgetData "b9" ⟨2024, 0, 1⟩).validate)) ∧
    (mkSubscription exGoodSubData "s9" ⟨2024, 0, 1⟩).validate = [] ∧
    SubscriptionService.create [] exGoodSubData "s9" ⟨2024, 0, 1⟩ =
      ([mkSubscription exGoodSubData "s9" ⟨2024, 0, 1⟩],
        Except.ok (mkSubscription exGoodSubData "s9" ⟨2024, 0, 1⟩)) :=
  ⟨by decide,
   (c8_validation_atomicity.2.1 [] exBadBudgetData "b9" ⟨2024, 0, 1⟩).1 (by decide),
   by decide,
   (c8_validation_atomicity.1 [] exGoodSubData "s9" ⟨2024, 0, 1⟩).2 (by decide)⟩

/-- C9: the claim asserts the nine-column header (ending in Created
Date) for every export including the empty one, but `convertToCSV` of an
empty subscription list returns an eight-column header without Created
Date (followed by a newline), so the nine-column header line is not a
prefix of the empty export. -/
theorem c9_empty_header_counterexample :
    convertToCSV [] =
      "Name,Cost,Currency,Billing Cycle,Next Billing Date,Category,Status,Notes\n" ∧
    ((String.intercalate "," csvHeaders).data.isPrefixOf
      (convertToCSV []).data) = false :=
  ⟨rfl, by decide⟩

/-- C9 (amended): for a non-empty subscription list the export is the
fixed nine-column header line followed by one row per subscription,
joined by newlines; every field containing a comma, double quote or
newline is wrapped in double quotes with embedded quotes doubled, and
every other field is emitted verbatim; an empty list instead yields only
an eight-column header (without Created Date) and a trailing newline. -/
theorem c9_csv_export (subs : List CSVSub) (h : subs ≠ []) :
    convertToCSV subs =
      String.intercalate "\n"
        ("Name,Cost,Currency,Billing Cycle,Next Billing Date,Category,Status,Notes,Created Date"
          :: subs.map csvRow) ∧
    (∀ s : String,
      (s.data.contains ',' || s.data.contains '"' || s.data.contains '\n') = true →
      escapeCSV s = "\"" ++ dupQuotes s ++ "\"") ∧
    (∀ s : String,
      (s.data.contains ',' || s.data.contains '"' || s.data.contains '\n') = false →
      escapeCSV s = s) ∧
    convertToCSV [] =
      "Name,Cost,Currency,Billing Cycle,Next Billing Date,Category,Status,Notes\n" := by
  refine ⟨?_, ?_, ?_, rfl⟩
  · rw [convertToCSV, if_neg (by simpa [List.isEmpty_iff] using h),
      show String.intercalate "," csvHeaders =
        "Name,Cost,Currency,Billing Cycle,Next Billing Date,Category,Status,Notes,Created Date"
        by decide]
  · intro s hs
    rw [escapeCSV, if_pos hs]
  · intro s hs
    simp only [escapeCSV, hs, Bool.false_eq_true, if_false]

theorem c9_csv_export_witness :
    [exCSVSub] ≠ [] ∧
    convertToCSV [exCSVSub] =
      String.intercalate "\n"
        ("Name,Cost,Currency,Billing Cycle,Next Billing Date,Category,Status,Notes,Created Date"
          :: [exCSVSub].map csvRow) :=
  ⟨by decide, (c9_csv_export [exCSVSub] (by decide)).1⟩

/-- C10: the Budget constructor turns an absent or zero `alertThreshold`
into the default 80 (`data.alertThreshold || 80`), and no constructed
budget ever stores a zero alert threshold. -/
theorem c10_alert_threshold_default (data : BudgetData) (fid : String)
    (now : CalDate) :
    ((data.alertThreshold = none ∨ data.alertThreshold = some 0) →
      (mkBudget data fid now).alertThreshold = 80) ∧
    (mkBudget data fid now).alertThreshold ≠ 0 := by
  constructor
  · rintro (h | h) <;> simp [mkBudget, ratOr, h]
  · simp only [mkBudget, ratOr]
    cases h : data.alertThreshold with
    | none => decide
    | some x =>
      by_cases hx : x = 0
      · simp only [hx, if_pos rfl]
        decide
      · simp [hx]

theorem c10_alert_threshold_default_witness :
    (exBudgetDataNoThreshold.alertThreshold = none ∨
      exBudgetDataNoThreshold.alertThreshold = some 0) ∧
    (mkBudget exBudgetDataNoThreshold "b1" ⟨2024, 0, 1⟩).alertThreshold = 80 ∧
    (mkBudget exBudgetDataNoThreshold "b1" ⟨2024, 0, 1⟩).alertThreshold ≠ 0 :=
  ⟨Or.inl rfl,
   (c10_alert_threshold_default exBudgetDataNoThreshold "b1" ⟨2024, 0, 1⟩).1
     (Or.inl rfl),
   (c10_alert_threshold_default exBudgetDataNoThreshold "b1" ⟨2024, 0, 1⟩).2⟩
